import Mathlib

/-!
Verification development for the code-review crew orchestration layer
(`src/crew.py`, class `CodeReviewCrew`).

The Python class is shallowly embedded:
* YAML configuration documents become association lists keyed by `String`;
* Python exceptions become an explicit `CrewError` value carried in `Except`;
* `str.format` on task description templates becomes `renderTemplate` over an
  explicit template (list of literal chunks and placeholders);
* `datetime.now()` becomes an abstract clock `Nat → String` sampled once per
  loop iteration, as in the source;
* `os.path.exists` / `open().read()` become an abstract `FS` record, and
  `os.path.abspath` / `os.path.basename` abstract string functions.
-/

namespace CodeReviewCrew

/-- Python exceptions raised by `crew.py`, by kind, with their message. -/
inductive CrewError where
  | fileNotFound (msg : String)
  | valueError (msg : String)
  | keyError (msg : String)
deriving DecidableEq, Repr

/-- One entry of `agents.yaml`: `role`/`goal`/`backstory` are required by the
constructor (`config['role']` etc.); the three flags are optional
(`config.get(...)`). -/
structure AgentConfig where
  role : String
  goal : String
  backstory : String
  verbose : Option Bool
  allow_delegation : Option Bool
  memory : Option Bool
deriving DecidableEq, Repr

/-- A constructed `crewai.Agent` persona, as far as `crew.py` populates it. -/
structure Agent where
  role : String
  goal : String
  backstory : String
  verbose : Bool
  allow_delegation : Bool
  memory : Bool
deriving DecidableEq, Repr

/-- The `Agent(...)` call of `_create_agents`: fields copied from the
configuration entry, with `config.get('verbose', True)`,
`config.get('allow_delegation', False)`, `config.get('memory', True)`. -/
def mkAgent (config : AgentConfig) : Agent :=
  { role := config.role
    goal := config.goal
    backstory := config.backstory
    verbose := config.verbose.getD true
    allow_delegation := config.allow_delegation.getD false
    memory := config.memory.getD true }

/-- The hardcoded `agent_names` list of `_create_agents`. -/
def agent_names : List String :=
  ["bug_detector_agent", "security_analyzer_agent",
   "performance_analyzer_agent", "documentation_analyzer_agent"]

/-- The loop body of `_create_agents`: walk the fixed name list, failing with
the `KeyError` of the source on the first name missing from `agents.yaml`. -/
def createAgentsLoop (agents_config : List (String × AgentConfig)) :
    List String → Except CrewError (List (String × Agent))
  | [] => .ok []
  | name :: rest =>
    match agents_config.lookup name with
    | none => .error (.keyError ("Agent '" ++ name ++ "' not found in agents.yaml"))
    | some config =>
      match createAgentsLoop agents_config rest with
      | .error e => .error e
      | .ok tail => .ok ((name, mkAgent config) :: tail)

/-- `_create_agents`: the registry of the four fixed agents, or the first
missing-key error. A Python exception aborts the whole method, so on error no
(partial) registry value exists at all. -/
def createAgents (agents_config : List (String × AgentConfig)) :
    Except CrewError (List (String × Agent)) :=
  createAgentsLoop agents_config agent_names

/-- The placeholders appearing in `config['description'].format(...)` inside
`_create_tasks`. -/
inductive Placeholder where
  | code_file_path
  | code_file_name
  | code_content
  | total_lines
  | datetime
deriving DecidableEq, Repr

/-- One chunk of a description template: literal text or a `{placeholder}`. -/
inductive TmplPart where
  | lit (s : String)
  | ph (p : Placeholder)
deriving DecidableEq, Repr

/-- A description template, as the YAML task document holds it. -/
abbrev Template := List TmplPart

/-- One entry of `tasks.yaml`. -/
structure TaskConfig where
  description : Template
  expected_output : String
deriving DecidableEq, Repr

/-- The per-run substitution environment of `_create_tasks`, except the
timestamp (which `datetime.now()` samples per iteration). -/
structure BaseEnv where
  code_file_path : String
  code_file_name : String
  code_content : String
  total_lines : Nat
deriving DecidableEq, Repr

/-- The value substituted for one placeholder: keyword arguments of the
`.format(...)` call in `_create_tasks`. -/
def Placeholder.subst (b : BaseEnv) (dt : String) : Placeholder → String
  | .code_file_path => b.code_file_path
  | .code_file_name => b.code_file_name
  | .code_content => b.code_content
  | .total_lines => toString b.total_lines
  | .datetime => dt

/-- `config['description'].format(...)`: substitute every placeholder. -/
def renderTemplate (b : BaseEnv) (dt : String) : Template → String
  | [] => ""
  | .lit s :: rest => s ++ renderTemplate b dt rest
  | .ph p :: rest => p.subst b dt ++ renderTemplate b dt rest

/-- A constructed `crewai.Task`, as far as `crew.py` populates it: the
`context` is `None` or the (non-empty) list of upstream task objects. -/
inductive CrewTask where
  | mk (description : String) (expected_output : String) (agent : Agent)
       (context : Option (List CrewTask))

/-- The rendered description of a task. -/
def CrewTask.description : CrewTask → String
  | .mk d _ _ _ => d

/-- The expected-output string of a task. -/
def CrewTask.expected_output : CrewTask → String
  | .mk _ e _ _ => e

/-- The agent bound to a task. -/
def CrewTask.agent : CrewTask → Agent
  | .mk _ _ a _ => a

/-- The context (upstream task objects) of a task. -/
def CrewTask.context : CrewTask → Option (List CrewTask)
  | .mk _ _ _ c => c

/-- The hardcoded `task_names` list of `_create_tasks`, in iteration order. -/
def task_names : List String :=
  ["bug_detection_task", "security_analysis_task",
   "performance_analysis_task", "documentation_review_task"]

/-- The hardcoded `agent_mapping` dict of `_create_tasks` (a literal with
exactly these four keys; the loop only ever indexes it with them). -/
def agent_mapping : String → String
  | "bug_detection_task" => "bug_detector_agent"
  | "security_analysis_task" => "security_analyzer_agent"
  | "performance_analysis_task" => "performance_analyzer_agent"
  | "documentation_review_task" => "documentation_analyzer_agent"
  | _ => ""

/-- The hardcoded `task_dependencies` dict of `_create_tasks`. -/
def task_dependencies : String → List String
  | "bug_detection_task" => []
  | "security_analysis_task" => ["bug_detection_task"]
  | "performance_analysis_task" => ["bug_detection_task", "security_analysis_task"]
  | "documentation_review_task" =>
      ["bug_detection_task", "security_analysis_task", "performance_analysis_task"]
  | _ => []

/-- The loop body of `_create_tasks`. `i` counts iterations so that
`clock i` models the `datetime.now()` call of iteration `i`; `task_objects`
is the dict of already-built tasks (newest first, matching dict overwrite).
The context collects, in dependency order, those upstream tasks already in
`task_objects` (the `if dep_task_name in task_objects` guard), and becomes
`None` when that list is empty (`context if context else None`). -/
def createTasksLoop (tasks_config : List (String × TaskConfig))
    (agents : List (String × Agent)) (b : BaseEnv) (clock : Nat → String) :
    List String → Nat → List (String × CrewTask) → Except CrewError (List CrewTask)
  | [], _, _ => .ok []
  | name :: rest, i, task_objects =>
    match tasks_config.lookup name with
    | none => .error (.keyError ("Task '" ++ name ++ "' not found in tasks.yaml"))
    | some config =>
      match agents.lookup (agent_mapping name) with
      | none => .error (.keyError (agent_mapping name))
      | some ag =>
        let description := renderTemplate b (clock i) config.description
        let context :=
          (task_dependencies name).filterMap (fun d => task_objects.lookup d)
        let task := CrewTask.mk description config.expected_output ag
          (if context.isEmpty then none else some context)
        match createTasksLoop tasks_config agents b clock rest (i + 1)
            ((name, task) :: task_objects) with
        | .error e => .error e
        | .ok tail => .ok (task :: tail)

/-- `_create_tasks`: the four rendered tasks in order, or the first error. -/
def createTasks (tasks_config : List (String × TaskConfig))
    (agents : List (String × Agent)) (b : BaseEnv) (clock : Nat → String) :
    Except CrewError (List CrewTask) :=
  createTasksLoop tasks_config agents b clock task_names 0 []

/-- Python `str.splitlines` restricted to the line endings `\n`, `\r`,
`\r\n`: no trailing empty line, and the empty string yields `[]`. -/
def splitlinesGo : List Char → List Char → List String
  | [], cur => if cur.isEmpty then [] else [String.mk cur.reverse]
  | '\r' :: '\n' :: rest, cur => String.mk cur.reverse :: splitlinesGo rest []
  | '\r' :: rest, cur => String.mk cur.reverse :: splitlinesGo rest []
  | '\n' :: rest, cur => String.mk cur.reverse :: splitlinesGo rest []
  | c :: rest, cur => splitlinesGo rest (c :: cur)

/-- `self.code_content.splitlines()`. -/
def splitlines (s : String) : List String :=
  splitlinesGo s.data []

/-- Python `str.endswith`, as a suffix check on the character sequence. -/
def strEndsWith (s post : String) : Bool :=
  post.data.isSuffixOf s.data

/-- The file-system view the constructor consults: `os.path.exists` and
`open(path).read()` (total here; a theorem's hypotheses pin down the files
that matter). -/
structure FS where
  pathExists : String → Bool
  readFile : String → String

/-- Everything `__init__` stores on `self` that later phases read. -/
structure CrewState where
  output_dir : String
  code_file_path : String
  code_file_name : String
  code_content : String
  code_lines : List String
  agents : List (String × Agent)
  tasks : List CrewTask

/-- The tail of `__init__` after the code content is in hand: build the
agents, then the tasks (`datetime.now()` per task via `clock`). -/
def initTail (clock : Nat → String) (output_dir path name content : String)
    (agents_config : List (String × AgentConfig))
    (tasks_config : List (String × TaskConfig)) : Except CrewError CrewState :=
  let lines := splitlines content
  match createAgents agents_config with
  | .error e => .error e
  | .ok agents =>
    let b : BaseEnv :=
      { code_file_path := path, code_file_name := name
        code_content := content, total_lines := lines.length }
    match createTasks tasks_config agents b clock with
    | .error e => .error e
    | .ok tasks =>
      .ok { output_dir := output_dir, code_file_path := path,
            code_file_name := name, code_content := content,
            code_lines := lines, agents := agents, tasks := tasks }

/-- `CodeReviewCrew.__init__`. `abspath`/`basename` stand for
`os.path.abspath`/`os.path.basename`. A non-empty `code_content` string is
truthy and selects direct-content mode, skipping the file checks; `None` or
the empty string falls through to file validation (`if code_content:`). -/
def initCrew (abspath basename : String → String) (fs : FS)
    (clock : Nat → String) (code_file_path output_dir : String)
    (agents_config : List (String × AgentConfig))
    (tasks_config : List (String × TaskConfig))
    (code_content : Option String) : Except CrewError CrewState :=
  let code_file_name := basename code_file_path
  let direct : Option String :=
    match code_content with
    | some c => if c = "" then none else some c
    | none => none
  match direct with
  | some content =>
      initTail clock output_dir code_file_path code_file_name content
        agents_config tasks_config
  | none =>
      if fs.pathExists code_file_path = false then
        .error (.fileNotFound ("Code file not found: " ++ code_file_path))
      else if strEndsWith code_file_path ".py" = false then
        .error (.valueError ("File must be a Python file (.py): " ++ code_file_path))
      else
        let abs := abspath code_file_path
        initTail clock output_dir abs code_file_name (fs.readFile abs)
          agents_config tasks_config

/-- The aggregate result object returned by `crew.kickoff()`: `raw` models
the optional `.raw` attribute (`hasattr(result, 'raw')`), `asStr` the
`str(result)` fallback. -/
structure ReviewResult where
  raw : Option String
  asStr : String
deriving DecidableEq, Repr

/-- `str(result.raw) if hasattr(result, 'raw') else str(result)`. -/
def extractRawText (r : ReviewResult) : String :=
  match r.raw with
  | some x => x
  | none => r.asStr

/-- `Path(name).rfind`-style index of the last `.` in a character list. -/
def rfindDot : List Char → Option Nat
  | [] => none
  | c :: rest =>
    match rfindDot rest with
    | some i => some (i + 1)
    | none => if c = '.' then some 0 else none

/-- `pathlib.Path(s).stem` for a bare file name: drop the suffix starting at
the last `.`, unless that dot is at position 0 or the end. -/
def stem (s : String) : String :=
  match rfindDot s.data with
  | some i => if 0 < i ∧ i < s.data.length - 1 then String.mk (s.data.take i) else s
  | none => s

/-- The fixed header block `_save_results` writes before the report body. -/
def reportHeader (code_file_name date : String) : String :=
  "# Code Review Report\n\n" ++ "**File**: " ++ code_file_name ++ "\n" ++
  "**Date**: " ++ date ++ "\n\n" ++ "---\n\n"

/-- `_save_results`: the two (path, content) pairs written — the markdown
report with the header prepended and the raw debug copy. `timestamp` is the
`%Y%m%d_%H%M%S` file-name stamp, `date` the `%Y-%m-%d %H:%M:%S` header
stamp. -/
def saveResults (output_dir code_file_name timestamp date : String)
    (r : ReviewResult) : (String × String) × (String × String) :=
  let base_name := stem code_file_name
  let result_text := extractRawText r
  ((output_dir ++ "/" ++ base_name ++ "_review_" ++ timestamp ++ ".md",
    reportHeader code_file_name date ++ result_text),
   (output_dir ++ "/" ++ base_name ++ "_raw_" ++ timestamp ++ ".txt",
    result_text))

/-- `CodeReviewCrew.run`: `kickoff` is the opaque external engine call,
`save` the persistence step. The `except` clause prints the error and
re-raises it; the second component collects that log line. -/
def runCrew {ε : Type} (describe : ε → String) (kickoff : Except ε ReviewResult)
    (save : ReviewResult → Except ε Unit) :
    Except ε ReviewResult × List String :=
  match kickoff with
  | .error e => (.error e, ["\n❌ Error during code review: " ++ describe e])
  | .ok result =>
    match save result with
    | .error e => (.error e, ["\n❌ Error during code review: " ++ describe e])
    | .ok _ => (.ok result, [])

end CodeReviewCrew


namespace CodeReviewCrew

/-- The first task (`bug_detection_task`) as `_create_tasks` builds it from
configuration entry `c1` and agent `a1`: empty dependency list, so the
context is `None`. -/
def builtTask1 (b : BaseEnv) (clock : Nat → String) (c1 : TaskConfig)
    (a1 : Agent) : CrewTask :=
  CrewTask.mk (renderTemplate b (clock 0) c1.description) c1.expected_output a1 none

/-- The second task (`security_analysis_task`): context `[bug_detection]`. -/
def builtTask2 (b : BaseEnv) (clock : Nat → String) (c1 c2 : TaskConfig)
    (a1 a2 : Agent) : CrewTask :=
  CrewTask.mk (renderTemplate b (clock 1) c2.description) c2.expected_output a2
    (some [builtTask1 b clock c1 a1])

/-- The third task (`performance_analysis_task`): context
`[bug_detection, security_analysis]`. -/
def builtTask3 (b : BaseEnv) (clock : Nat → String) (c1 c2 c3 : TaskConfig)
    (a1 a2 a3 : Agent) : CrewTask :=
  CrewTask.mk (renderTemplate b (clock 2) c3.description) c3.expected_output a3
    (some [builtTask1 b clock c1 a1, builtTask2 b clock c1 c2 a1 a2])

/-- The fourth task (`documentation_review_task`): context
`[bug_detection, security_analysis, performance_analysis]`. -/
def builtTask4 (b : BaseEnv) (clock : Nat → String) (c1 c2 c3 c4 : TaskConfig)
    (a1 a2 a3 a4 : Agent) : CrewTask :=
  CrewTask.mk (renderTemplate b (clock 3) c4.description) c4.expected_output a4
    (some [builtTask1 b clock c1 a1, builtTask2 b clock c1 c2 a1 a2,
           builtTask3 b clock c1 c2 c3 a1 a2 a3])

/-- The four-task list `_create_tasks` returns on success. -/
def builtTasks (b : BaseEnv) (clock : Nat → String) (c1 c2 c3 c4 : TaskConfig)
    (a1 a2 a3 a4 : Agent) : List CrewTask :=
  [builtTask1 b clock c1 a1, builtTask2 b clock c1 c2 a1 a2,
   builtTask3 b clock c1 c2 c3 a1 a2 a3,
   builtTask4 b clock c1 c2 c3 c4 a1 a2 a3 a4]

/-- Shared helper: when all four task configurations and all four mapped
agents are present, `_create_tasks` computes to the explicit four-task list
with the hardcoded contexts. -/
theorem createTasks_eq
    (tcfg : List (String × TaskConfig)) (agents : List (String × Agent))
    (b : BaseEnv) (clock : Nat → String)
    (c1 c2 c3 c4 : TaskConfig) (a1 a2 a3 a4 : Agent)
    (hc1 : tcfg.lookup "bug_detection_task" = some c1)
    (hc2 : tcfg.lookup "security_analysis_task" = some c2)
    (hc3 : tcfg.lookup "performance_analysis_task" = some c3)
    (hc4 : tcfg.lookup "documentation_review_task" = some c4)
    (ha1 : agents.lookup "bug_detector_agent" = some a1)
    (ha2 : agents.lookup "security_analyzer_agent" = some a2)
    (ha3 : agents.lookup "performance_analyzer_agent" = some a3)
    (ha4 : agents.lookup "documentation_analyzer_agent" = some a4) :
    createTasks tcfg agents b clock =
      .ok (builtTasks b clock c1 c2 c3 c4 a1 a2 a3 a4) := by
  simp [createTasks, createTasksLoop, hc1, hc2, hc3, hc4, ha1, ha2, ha3, ha4,
    agent_mapping, task_dependencies, task_names, List.lookup, builtTasks,
    builtTask1, builtTask2, builtTask3, builtTask4]

end CodeReviewCrew

namespace CodeReviewCrew

/-- Shared helper: a successful `_create_tasks` run determines all eight
lookups and the exact shape of the result. -/
theorem createTasks_ok_elim
    {tcfg : List (String × TaskConfig)} {agents : List (String × Agent)}
    {b : BaseEnv} {clock : Nat → String} {r : List CrewTask}
    (h : createTasks tcfg agents b clock = .ok r) :
    ∃ c1 c2 c3 c4 a1 a2 a3 a4,
      tcfg.lookup "bug_detection_task" = some c1 ∧
      tcfg.lookup "security_analysis_task" = some c2 ∧
      tcfg.lookup "performance_analysis_task" = some c3 ∧
      tcfg.lookup "documentation_review_task" = some c4 ∧
      agents.lookup "bug_detector_agent" = some a1 ∧
      agents.lookup "security_analyzer_agent" = some a2 ∧
      agents.lookup "performance_analyzer_agent" = some a3 ∧
      agents.lookup "documentation_analyzer_agent" = some a4 ∧
      r = builtTasks b clock c1 c2 c3 c4 a1 a2 a3 a4 := by
  cases hc1 : tcfg.lookup "bug_detection_task" with
  | none => simp [createTasks, createTasksLoop, task_names, hc1] at h
  | some c1 =>
  cases ha1 : agents.lookup "bug_detector_agent" with
  | none => simp [createTasks, createTasksLoop, task_names, agent_mapping, hc1, ha1] at h
  | some a1 =>
  cases hc2 : tcfg.lookup "security_analysis_task" with
  | none =>
    simp [createTasks, createTasksLoop, task_names, agent_mapping, hc1, ha1, hc2] at h
  | some c2 =>
  cases ha2 : agents.lookup "security_analyzer_agent" with
  | none =>
    simp [createTasks, createTasksLoop, task_names, agent_mapping, hc1, ha1, hc2, ha2] at h
  | some a2 =>
  cases hc3 : tcfg.lookup "performance_analysis_task" with
  | none =>
    simp [createTasks, createTasksLoop, task_names, agent_mapping,
      hc1, ha1, hc2, ha2, hc3] at h
  | some c3 =>
  cases ha3 : agents.lookup "performance_analyzer_agent" with
  | none =>
    simp [createTasks, createTasksLoop, task_names, agent_mapping,
      hc1, ha1, hc2, ha2, hc3, ha3] at h
  | some a3 =>
  cases hc4 : tcfg.lookup "documentation_review_task" with
  | none =>
    simp [createTasks, createTasksLoop, task_names, agent_mapping,
      hc1, ha1, hc2, ha2, hc3, ha3, hc4] at h
  | some c4 =>
  cases ha4 : agents.lookup "documentation_analyzer_agent" with
  | none =>
    simp [createTasks, createTasksLoop, task_names, agent_mapping,
      hc1, ha1, hc2, ha2, hc3, ha3, hc4, ha4] at h
  | some a4 =>
    refine ⟨c1, c2, c3, c4, a1, a2, a3, a4, rfl, rfl, rfl, rfl, rfl, rfl, rfl, rfl, ?_⟩
    have he := createTasks_eq tcfg agents b clock c1 c2 c3 c4 a1 a2 a3 a4
      hc1 hc2 hc3 hc4 ha1 ha2 ha3 ha4
    rw [he] at h
    exact (Except.ok.inj h).symm

/-- C1: for every successful construction of the task graph, the four tasks'
contexts are exactly the hardcoded upstream sets in order: the first task
(bug_detection) has no upstream context, the second (security_analysis) has
`[bug_detection]`, the third (performance_analysis) has
`[bug_detection, security_analysis]`, and the fourth (documentation_review)
has exactly `[bug_detection, security_analysis, performance_analysis]` —
never itself or any other task. -/
theorem createTasks_context_eq_hardcoded_deps
    (tcfg : List (String × TaskConfig)) (agents : List (String × Agent))
    (b : BaseEnv) (clock : Nat → String) (r : List CrewTask)
    (h : createTasks tcfg agents b clock = .ok r) :
    ∃ t1 t2 t3 t4, r = [t1, t2, t3, t4] ∧
      t1.context = none ∧
      t2.context = some [t1] ∧
      t3.context = some [t1, t2] ∧
      t4.context = some [t1, t2, t3] := by
  obtain ⟨c1, c2, c3, c4, a1, a2, a3, a4, -, -, -, -, -, -, -, -, hr⟩ :=
    createTasks_ok_elim h
  subst hr
  exact ⟨builtTask1 b clock c1 a1, builtTask2 b clock c1 c2 a1 a2,
    builtTask3 b clock c1 c2 c3 a1 a2 a3,
    builtTask4 b clock c1 c2 c3 c4 a1 a2 a3 a4, rfl, rfl, rfl, rfl, rfl⟩

/-- C10: for every successful construction, the task with an empty dependency
set is built with context `None` (not the empty list), and every other task
receives a non-empty list of task objects as context. -/
theorem createTasks_empty_deps_context_none
    (tcfg : List (String × TaskConfig)) (agents : List (String × Agent))
    (b : BaseEnv) (clock : Nat → String) (r : List CrewTask)
    (h : createTasks tcfg agents b clock = .ok r) :
    ∃ t1 rest, r = t1 :: rest ∧
      t1.context = none ∧ t1.context ≠ some [] ∧
      ∀ t ∈ rest, ∃ l, t.context = some l ∧ l ≠ [] := by
  obtain ⟨c1, c2, c3, c4, a1, a2, a3, a4, -, -, -, -, -, -, -, -, hr⟩ :=
    createTasks_ok_elim h
  subst hr
  refine ⟨builtTask1 b clock c1 a1, _, rfl, rfl,
    by simp [builtTask1, CrewTask.context], ?_⟩
  intro t ht
  fin_cases ht <;> exact ⟨_, rfl, by simp⟩

/-- A sample task configuration used by concrete witnesses. -/
def tcfgEx : List (String × TaskConfig) :=
  [("bug_detection_task",
    ⟨[TmplPart.lit "Find bugs in ", TmplPart.ph Placeholder.code_file_name,
      TmplPart.lit " (", TmplPart.ph Placeholder.total_lines,
      TmplPart.lit " lines) at ", TmplPart.ph Placeholder.datetime],
     "bug report"⟩),
   ("security_analysis_task",
    ⟨[TmplPart.lit "Audit ", TmplPart.ph Placeholder.code_content,
      TmplPart.lit " at ", TmplPart.ph Placeholder.datetime], "sec report"⟩),
   ("performance_analysis_task",
    ⟨[TmplPart.lit "Profile ", TmplPart.ph Placeholder.code_file_path],
     "perf report"⟩),
   ("documentation_review_task",
    ⟨[TmplPart.lit "Document ", TmplPart.ph Placeholder.code_file_name],
     "doc report"⟩)]

/-- A sample agent used by concrete witnesses. -/
def agentEx : Agent :=
  ⟨"reviewer", "review code", "a careful reviewer", true, false, true⟩

/-- A sample agent registry used by concrete witnesses. -/
def agentsEx : List (String × Agent) :=
  [("bug_detector_agent", agentEx), ("security_analyzer_agent", agentEx),
   ("performance_analyzer_agent", agentEx), ("documentation_analyzer_agent", agentEx)]

/-- A sample substitution environment used by concrete witnesses. -/
def bEx : BaseEnv := ⟨"/tmp/a.py", "a.py", "print(1)\n", 1⟩

/-- A sample clock used by concrete witnesses. -/
def clockEx : Nat → String := fun _ => "2026-10-12 00:00:00"

/-- Concrete witness for C1. -/
theorem createTasks_context_eq_hardcoded_deps_witness :
    ∃ r, createTasks tcfgEx agentsEx bEx clockEx = .ok r ∧
      ∃ t1 t2 t3 t4, r = [t1, t2, t3, t4] ∧
        t1.context = none ∧
        t2.context = some [t1] ∧
        t3.context = some [t1, t2] ∧
        t4.context = some [t1, t2, t3] :=
  ⟨_, rfl, createTasks_context_eq_hardcoded_deps tcfgEx agentsEx bEx clockEx _ rfl⟩

/-- Concrete witness for C10. -/
theorem createTasks_empty_deps_context_none_witness :
    ∃ r, createTasks tcfgEx agentsEx bEx clockEx = .ok r ∧
      ∃ t1 rest, r = t1 :: rest ∧
        t1.context = none ∧ t1.context ≠ some [] ∧
        ∀ t ∈ rest, ∃ l, t.context = some l ∧ l ≠ [] :=
  ⟨_, rfl, createTasks_empty_deps_context_none tcfgEx agentsEx bEx clockEx _ rfl⟩

end CodeReviewCrew

namespace CodeReviewCrew

/-- Shared helper: every entry of a successfully built registry comes from a
configuration entry via `mkAgent`. -/
theorem createAgentsLoop_ok_mem
    (names : List String) (acfg : List (String × AgentConfig))
    (r : List (String × Agent)) (h : createAgentsLoop acfg names = .ok r) :
    ∀ p ∈ r, ∃ c, acfg.lookup p.1 = some c ∧ p.2 = mkAgent c := by
  induction names generalizing r with
  | nil =>
    intro p hp
    simp [createAgentsLoop] at h
    subst h
    simp at hp
  | cons name rest ih =>
    intro p hp
    cases hl : acfg.lookup name with
    | none => simp [createAgentsLoop, hl] at h
    | some c =>
      cases hr : createAgentsLoop acfg rest with
      | error e => simp [createAgentsLoop, hl, hr] at h
      | ok tail =>
        simp [createAgentsLoop, hl, hr] at h
        subst h
        rcases List.mem_cons.mp hp with hp1 | hp2
        · subst hp1
          exact ⟨c, hl, rfl⟩
        · exact ih tail hr p hp2

/-- C8: every constructed persona copies `role`, `goal`, `backstory` verbatim
from its configuration entry; absent optional flags default to
`verbose = true`, `allow_delegation = false`, `memory = true`, while present
flags are copied. -/
theorem createAgents_copies_fields_and_defaults
    (acfg : List (String × AgentConfig)) (r : List (String × Agent))
    (h : createAgents acfg = .ok r) :
    ∀ p ∈ r, ∃ c, acfg.lookup p.1 = some c ∧
      p.2.role = c.role ∧ p.2.goal = c.goal ∧ p.2.backstory = c.backstory ∧
      (c.verbose = none → p.2.verbose = true) ∧
      (c.allow_delegation = none → p.2.allow_delegation = false) ∧
      (c.memory = none → p.2.memory = true) ∧
      (∀ v, c.verbose = some v → p.2.verbose = v) ∧
      (∀ v, c.allow_delegation = some v → p.2.allow_delegation = v) ∧
      (∀ v, c.memory = some v → p.2.memory = v) := by
  intro p hp
  obtain ⟨c, hl, hpc⟩ := createAgentsLoop_ok_mem agent_names acfg r h p hp
  refine ⟨c, hl, ?_, ?_, ?_, ?_, ?_, ?_, ?_, ?_, ?_⟩ <;>
    simp [hpc, mkAgent] <;>
    first
    | (intro hv; simp [hv])
    | (constructor <;> intro hv <;> simp [hv])

/-- A sample agent configuration document used by concrete witnesses; some
optional flags are absent, some present. -/
def acfgEx : List (String × AgentConfig) :=
  [("bug_detector_agent",
    ⟨"Bug Detector", "find bugs", "a bug hunter", none, none, none⟩),
   ("security_analyzer_agent",
    ⟨"Security Analyzer", "find vulnerabilities", "a security expert",
     some false, none, some false⟩),
   ("performance_analyzer_agent",
    ⟨"Performance Analyzer", "find slow paths", "a profiler", none, some true, none⟩),
   ("documentation_analyzer_agent",
    ⟨"Documentation Analyzer", "review docs", "a writer",
     some true, some false, some true⟩)]

/-- Concrete witness for C8. -/
theorem createAgents_copies_fields_and_defaults_witness :
    ∃ r, createAgents acfgEx = .ok r ∧
      ∀ p ∈ r, ∃ c, acfgEx.lookup p.1 = some c ∧
        p.2.role = c.role ∧ p.2.goal = c.goal ∧ p.2.backstory = c.backstory ∧
        (c.verbose = none → p.2.verbose = true) ∧
        (c.allow_delegation = none → p.2.allow_delegation = false) ∧
        (c.memory = none → p.2.memory = true) ∧
        (∀ v, c.verbose = some v → p.2.verbose = v) ∧
        (∀ v, c.allow_delegation = some v → p.2.allow_delegation = v) ∧
        (∀ v, c.memory = some v → p.2.memory = v) :=
  ⟨_, rfl, createAgents_copies_fields_and_defaults acfgEx _ rfl⟩

/-- C3: a configuration document missing one of the four required agent keys
(the other three present) makes registry construction fail with the
`KeyError` naming exactly that absent agent; no registry value exists, and a
whole constructor run (here in direct-content mode, which reaches agent
creation) yields only that error, never a partial object. -/
theorem createAgents_missing_key_error
    (acfg : List (String × AgentConfig)) (k : String)
    (hk : k ∈ agent_names)
    (hmiss : acfg.lookup k = none)
    (hothers : ∀ k' ∈ agent_names, k' ≠ k → (acfg.lookup k').isSome = true) :
    createAgents acfg =
      .error (.keyError ("Agent '" ++ k ++ "' not found in agents.yaml")) ∧
    ∀ (abspath basename : String → String) (fs : FS) (clock : Nat → String)
      (path outd : String) (tcfg : List (String × TaskConfig)) (c : String),
      c ≠ "" →
      initCrew abspath basename fs clock path outd acfg tcfg (some c) =
        .error (.keyError ("Agent '" ++ k ++ "' not found in agents.yaml")) := by
  have hmain : createAgents acfg =
      .error (.keyError ("Agent '" ++ k ++ "' not found in agents.yaml")) := by
    fin_cases hk
    · simp [createAgents, createAgentsLoop, agent_names, hmiss]
    · obtain ⟨c1, h1⟩ := Option.isSome_iff_exists.mp
        (hothers "bug_detector_agent" (by simp [agent_names]) (by decide))
      simp [createAgents, createAgentsLoop, agent_names, hmiss, h1]
    · obtain ⟨c1, h1⟩ := Option.isSome_iff_exists.mp
        (hothers "bug_detector_agent" (by simp [agent_names]) (by decide))
      obtain ⟨c2, h2⟩ := Option.isSome_iff_exists.mp
        (hothers "security_analyzer_agent" (by simp [agent_names]) (by decide))
      simp [createAgents, createAgentsLoop, agent_names, hmiss, h1, h2]
    · obtain ⟨c1, h1⟩ := Option.isSome_iff_exists.mp
        (hothers "bug_detector_agent" (by simp [agent_names]) (by decide))
      obtain ⟨c2, h2⟩ := Option.isSome_iff_exists.mp
        (hothers "security_analyzer_agent" (by simp [agent_names]) (by decide))
      obtain ⟨c3, h3⟩ := Option.isSome_iff_exists.mp
        (hothers "performance_analyzer_agent" (by simp [agent_names]) (by decide))
      simp [createAgents, createAgentsLoop, agent_names, hmiss, h1, h2, h3]
  refine ⟨hmain, ?_⟩
  intro abspath basename fs clock path outd tcfg c hne
  simp [initCrew, initTail, hne, hmain]

/-- The agent configuration of `acfgEx` with `documentation_analyzer_agent`
removed, used by the C3 witness. -/
def acfgMissEx : List (String × AgentConfig) :=
  acfgEx.filter (fun p => p.1 ≠ "documentation_analyzer_agent")

/-- A file-system view with no files, used by concrete witnesses. -/
def fsEmptyEx : FS := ⟨fun _ => false, fun _ => ""⟩

/-- Concrete witness for C3. -/
theorem createAgents_missing_key_error_witness :
    createAgents acfgMissEx =
      .error (.keyError "Agent 'documentation_analyzer_agent' not found in agents.yaml") ∧
    initCrew id id fsEmptyEx clockEx "display.py" "output" acfgMissEx tcfgEx
        (some "print(1)\n") =
      .error (.keyError "Agent 'documentation_analyzer_agent' not found in agents.yaml") := by
  have h := createAgents_missing_key_error acfgMissEx "documentation_analyzer_agent"
    (by decide) (by decide) (by decide)
  exact ⟨h.1, h.2 id id fsEmptyEx clockEx "display.py" "output" tcfgEx
    "print(1)\n" (by decide)⟩

end CodeReviewCrew

namespace CodeReviewCrew

/-- C5: persister round-trip. For a result whose raw text is `X`, the
markdown file's content is exactly the fixed header block followed by `X`,
and the raw file's entire content is exactly `X`; extraction prefers the
`.raw` attribute and falls back to the generic text conversion (and then the
two files hold that fallback text instead). -/
theorem saveResults_roundtrip (outd name ts date X s : String) :
    extractRawText ⟨some X, s⟩ = X ∧
    extractRawText ⟨none, s⟩ = s ∧
    (saveResults outd name ts date ⟨some X, s⟩).1.2 = reportHeader name date ++ X ∧
    (saveResults outd name ts date ⟨some X, s⟩).2.2 = X ∧
    (saveResults outd name ts date ⟨none, s⟩).1.2 = reportHeader name date ++ s ∧
    (saveResults outd name ts date ⟨none, s⟩).2.2 = s :=
  ⟨rfl, rfl, rfl, rfl, rfl, rfl⟩

/-- C6: when the external engine raises, `run` re-raises the same exception
to the caller after logging it — no retry, no fallback result; and when the
engine succeeds but saving fails, the persistence exception propagates
through `run`, so the caller never receives the computed result. -/
theorem runCrew_error_propagation {ε : Type} (describe : ε → String)
    (kickoff : Except ε ReviewResult) (save : ReviewResult → Except ε Unit) :
    (∀ e, kickoff = .error e →
      runCrew describe kickoff save =
        (.error e, ["\n❌ Error during code review: " ++ describe e])) ∧
    (∀ result e, kickoff = .ok result → save result = .error e →
      runCrew describe kickoff save =
        (.error e, ["\n❌ Error during code review: " ++ describe e])) := by
  constructor
  · intro e he
    simp [runCrew, he]
  · intro result e hk hs
    simp [runCrew, hk, hs]

/-- Concrete witness for C6. -/
theorem runCrew_error_propagation_witness :
    runCrew (fun e : String => e) (.error "engine failure")
        (fun _ => .ok ()) =
      (.error "engine failure", ["\n❌ Error during code review: engine failure"]) ∧
    runCrew (fun e : String => e) (.ok ⟨some "report", "report"⟩)
        (fun _ => .error "disk full") =
      (.error "disk full", ["\n❌ Error during code review: disk full"]) :=
  ⟨(runCrew_error_propagation (fun e => e) (.error "engine failure")
      (fun _ => .ok ())).1 "engine failure" rfl,
   (runCrew_error_propagation (fun e => e) (.ok ⟨some "report", "report"⟩)
      (fun _ => .error "disk full")).2 ⟨some "report", "report"⟩ "disk full" rfl rfl⟩

end CodeReviewCrew

namespace CodeReviewCrew

/-- C7: with no direct content, an existing file whose path does not end in
`.py` makes construction fail with the extension-kind `ValueError` — an error
distinct from the not-found kind — for every configuration, so no agent and
no task is ever constructed. -/
theorem initCrew_non_py_extension_error
    (abspath basename : String → String) (fs : FS) (clock : Nat → String)
    (path outd : String)
    (acfg : List (String × AgentConfig)) (tcfg : List (String × TaskConfig))
    (hex : fs.pathExists path = true)
    (hpy : strEndsWith path ".py" = false) :
    initCrew abspath basename fs clock path outd acfg tcfg none =
      .error (.valueError ("File must be a Python file (.py): " ++ path)) ∧
    ∀ m m', CrewError.valueError m ≠ CrewError.fileNotFound m' := by
  constructor
  · simp [initCrew, hex, hpy]
  · intro m m' hcontra
    cases hcontra

/-- A file-system view holding one non-Python file, used by witnesses. -/
def fsTxtEx : FS := ⟨fun p => p == "script.txt", fun _ => "hello"⟩

/-- Concrete witness for C7. -/
theorem initCrew_non_py_extension_error_witness :
    initCrew id id fsTxtEx clockEx "script.txt" "output" acfgEx tcfgEx none =
      .error (.valueError "File must be a Python file (.py): script.txt") ∧
    ∀ m m', CrewError.valueError m ≠ CrewError.fileNotFound m' :=
  initCrew_non_py_extension_error id id fsTxtEx clockEx "script.txt" "output"
    acfgEx tcfgEx (by decide) (by decide)

/-- C9: the constructor branches on the truthiness of `code_content`. A
non-empty string selects direct-content mode: the result ignores the file
system entirely, the given path is kept verbatim as display name, the stored
content is the given string, and its lines come from `splitlines`. The empty
string is falsy and behaves exactly like `None`: the constructor falls
through to file validation and raises not-found or invalid-extension errors
against the given path. -/
theorem initCrew_content_truthiness_mode
    (abspath basename : String → String) (clock : Nat → String)
    (path outd : String)
    (acfg : List (String × AgentConfig)) (tcfg : List (String × TaskConfig)) :
    (∀ (fs1 fs2 : FS) (c : String), c ≠ "" →
      initCrew abspath basename fs1 clock path outd acfg tcfg (some c) =
        initCrew abspath basename fs2 clock path outd acfg tcfg (some c)) ∧
    (∀ (fs : FS) (c : String) (st : CrewState), c ≠ "" →
      initCrew abspath basename fs clock path outd acfg tcfg (some c) = .ok st →
      st.code_content = c ∧ st.code_file_path = path ∧
      st.code_file_name = basename path ∧ st.code_lines = splitlines c) ∧
    (∀ fs : FS,
      initCrew abspath basename fs clock path outd acfg tcfg (some "") =
        initCrew abspath basename fs clock path outd acfg tcfg none) ∧
    (∀ fs : FS, fs.pathExists path = false →
      initCrew abspath basename fs clock path outd acfg tcfg (some "") =
        .error (.fileNotFound ("Code file not found: " ++ path))) ∧
    (∀ fs : FS, fs.pathExists path = true → strEndsWith path ".py" = false →
      initCrew abspath basename fs clock path outd acfg tcfg (some "") =
        .error (.valueError ("File must be a Python file (.py): " ++ path))) := by
  refine ⟨?_, ?_, ?_, ?_, ?_⟩
  · intro fs1 fs2 c hne
    simp [initCrew, hne]
  · intro fs c st hne h
    simp only [initCrew, hne, if_false, initTail] at h
    split at h
    · simp at h
    · split at h
      · simp at h
      · have h' := (Except.ok.inj h).symm
        subst h'
        exact ⟨rfl, rfl, rfl, rfl⟩
  · intro fs
    simp [initCrew]
  · intro fs hne
    simp [initCrew, hne]
  · intro fs hex hpy
    simp [initCrew, hex, hpy]

/-- Concrete witness for C9. -/
theorem initCrew_content_truthiness_mode_witness :
    (initCrew id id fsEmptyEx clockEx "anything.txt" "output" acfgEx tcfgEx
        (some "x = 1\n") =
      initCrew id id fsTxtEx clockEx "anything.txt" "output" acfgEx tcfgEx
        (some "x = 1\n")) ∧
    (initCrew id id fsEmptyEx clockEx "missing.py" "output" acfgEx tcfgEx
        (some "") =
      .error (.fileNotFound "Code file not found: missing.py")) ∧
    (initCrew id id fsTxtEx clockEx "script.txt" "output" acfgEx tcfgEx
        (some "") =
      .error (.valueError "File must be a Python file (.py): script.txt")) := by
  have h := initCrew_content_truthiness_mode id id clockEx "anything.txt" "output"
    acfgEx tcfgEx
  have h2 := initCrew_content_truthiness_mode id id clockEx "missing.py" "output"
    acfgEx tcfgEx
  have h3 := initCrew_content_truthiness_mode id id clockEx "script.txt" "output"
    acfgEx tcfgEx
  exact ⟨h.1 fsEmptyEx fsTxtEx "x = 1\n" (by decide),
    h2.2.2.2.1 fsEmptyEx (by decide),
    h3.2.2.2.2 fsTxtEx (by decide) (by decide)⟩

end CodeReviewCrew

namespace CodeReviewCrew

/-- The registry `_create_agents` returns on success. -/
def builtAgents (ca1 ca2 ca3 ca4 : AgentConfig) : List (String × Agent) :=
  [("bug_detector_agent", mkAgent ca1), ("security_analyzer_agent", mkAgent ca2),
   ("performance_analyzer_agent", mkAgent ca3),
   ("documentation_analyzer_agent", mkAgent ca4)]

/-- Shared helper: when all four agent configurations are present,
`_create_agents` computes to the explicit four-entry registry. -/
theorem createAgents_eq
    (acfg : List (String × AgentConfig)) (ca1 ca2 ca3 ca4 : AgentConfig)
    (h1 : acfg.lookup "bug_detector_agent" = some ca1)
    (h2 : acfg.lookup "security_analyzer_agent" = some ca2)
    (h3 : acfg.lookup "performance_analyzer_agent" = some ca3)
    (h4 : acfg.lookup "documentation_analyzer_agent" = some ca4) :
    createAgents acfg = .ok (builtAgents ca1 ca2 ca3 ca4) := by
  simp [createAgents, createAgentsLoop, agent_names, h1, h2, h3, h4, builtAgents]

/-- C2: a construction whose code file exists, ends in `.py` and is empty
(zero lines) still succeeds with a fully rendered task set: no exception, the
stored line list is empty, and every description is rendered in an
environment whose `total_lines` is `0`, so the line-count placeholder
substitutes to the string `"0"`. -/
theorem initCrew_empty_content_ok
    (abspath basename : String → String) (fs : FS) (clock : Nat → String)
    (path outd : String)
    (acfg : List (String × AgentConfig)) (tcfg : List (String × TaskConfig))
    (ca1 ca2 ca3 ca4 : AgentConfig) (c1 c2 c3 c4 : TaskConfig)
    (hex : fs.pathExists path = true)
    (hpy : strEndsWith path ".py" = true)
    (hread : fs.readFile (abspath path) = "")
    (ha1 : acfg.lookup "bug_detector_agent" = some ca1)
    (ha2 : acfg.lookup "security_analyzer_agent" = some ca2)
    (ha3 : acfg.lookup "performance_analyzer_agent" = some ca3)
    (ha4 : acfg.lookup "documentation_analyzer_agent" = some ca4)
    (hc1 : tcfg.lookup "bug_detection_task" = some c1)
    (hc2 : tcfg.lookup "security_analysis_task" = some c2)
    (hc3 : tcfg.lookup "performance_analysis_task" = some c3)
    (hc4 : tcfg.lookup "documentation_review_task" = some c4) :
    ∃ st, initCrew abspath basename fs clock path outd acfg tcfg none = .ok st ∧
      st.code_content = "" ∧ st.code_lines = [] ∧ st.code_lines.length = 0 ∧
      st.tasks.length = 4 ∧
      st.tasks = builtTasks ⟨abspath path, basename path, "", 0⟩ clock
        c1 c2 c3 c4 (mkAgent ca1) (mkAgent ca2) (mkAgent ca3) (mkAgent ca4) ∧
      (∀ dt, Placeholder.subst ⟨abspath path, basename path, "", 0⟩ dt
        Placeholder.total_lines = "0") := by
  have hag := createAgents_eq acfg ca1 ca2 ca3 ca4 ha1 ha2 ha3 ha4
  have htasks := createTasks_eq tcfg (builtAgents ca1 ca2 ca3 ca4)
    ⟨abspath path, basename path, "", 0⟩ clock c1 c2 c3 c4
    (mkAgent ca1) (mkAgent ca2) (mkAgent ca3) (mkAgent ca4)
    hc1 hc2 hc3 hc4
    (by simp [builtAgents, List.lookup]) (by simp [builtAgents, List.lookup])
    (by simp [builtAgents, List.lookup]) (by simp [builtAgents, List.lookup])
  have hmain : initCrew abspath basename fs clock path outd acfg tcfg none =
      .ok { output_dir := outd, code_file_path := abspath path,
            code_file_name := basename path, code_content := "",
            code_lines := [],
            agents := builtAgents ca1 ca2 ca3 ca4,
            tasks := builtTasks ⟨abspath path, basename path, "", 0⟩ clock
              c1 c2 c3 c4 (mkAgent ca1) (mkAgent ca2) (mkAgent ca3)
              (mkAgent ca4) } := by
    simp [initCrew, hex, hpy, initTail, hread, hag, htasks, splitlines,
      splitlinesGo]
  refine ⟨_, hmain, rfl, rfl, rfl, rfl, rfl, fun dt => ?_⟩
  show toString (0 : Nat) = "0"
  decide

/-- A file-system view holding one empty Python file, used by witnesses. -/
def fsPyEmptyEx : FS := ⟨fun p => p == "empty.py", fun _ => ""⟩

/-- Concrete witness for C2. -/
theorem initCrew_empty_content_ok_witness :
    ∃ st, initCrew id id fsPyEmptyEx clockEx "empty.py" "output" acfgEx tcfgEx
        none = .ok st ∧
      st.code_content = "" ∧ st.code_lines = [] ∧ st.code_lines.length = 0 ∧
      st.tasks.length = 4 := by
  obtain ⟨st, h1, h2, h3, h4, h5, -, -⟩ :=
    initCrew_empty_content_ok id id fsPyEmptyEx clockEx "empty.py" "output"
      acfgEx tcfgEx _ _ _ _ _ _ _ _ (by decide) (by decide) rfl
      rfl rfl rfl rfl rfl rfl rfl rfl
  exact ⟨st, h1, h2, h3, h4, h5⟩

end CodeReviewCrew

namespace CodeReviewCrew

/-- The description template with every placeholder except the timestamp
substituted: `some` chunks are fixed text, `none` marks a timestamp hole. -/
def skeleton (b : BaseEnv) : Template → List (Option String)
  | [] => []
  | .lit s :: rest => some s :: skeleton b rest
  | .ph .datetime :: rest => none :: skeleton b rest
  | .ph p :: rest => some (p.subst b "") :: skeleton b rest

/-- Fill every timestamp hole of a skeleton with the timestamp `dt`. -/
def fillHoles (dt : String) : List (Option String) → String
  | [] => ""
  | some s :: rest => s ++ fillHoles dt rest
  | none :: rest => dt ++ fillHoles dt rest

/-- Rendering factors through the timestamp-free skeleton: the timestamp is
the only substitution the rest of the rendered string does not determine. -/
theorem renderTemplate_eq_fillHoles (b : BaseEnv) (dt : String) (t : Template) :
    renderTemplate b dt t = fillHoles dt (skeleton b t) := by
  induction t with
  | nil => rfl
  | cons part rest ih =>
    cases part with
    | lit s => simp [renderTemplate, skeleton, fillHoles, ih]
    | ph p =>
      cases p <;>
        simp [renderTemplate, skeleton, fillHoles, Placeholder.subst, ih]

/-- Shared helper: each task a successful `_create_tasks` loop builds has the
description obtained by rendering the task's configured template at that
iteration's timestamp. -/
theorem createTasksLoop_ok_desc
    (tcfg : List (String × TaskConfig)) (agents : List (String × Agent))
    (b : BaseEnv) (clock : Nat → String) :
    ∀ (names : List String) (i : Nat) (objs : List (String × CrewTask))
      (r : List CrewTask),
      createTasksLoop tcfg agents b clock names i objs = .ok r →
      r.length = names.length ∧
      ∀ j (hj : j < r.length) (hn : j < names.length),
        ∃ config, tcfg.lookup (names.get ⟨j, hn⟩) = some config ∧
          (r.get ⟨j, hj⟩).description =
            renderTemplate b (clock (i + j)) config.description := by
  intro names
  induction names with
  | nil =>
    intro i objs r h
    simp [createTasksLoop] at h
    subst h
    exact ⟨rfl, fun j hj hn => absurd hn (by simp)⟩
  | cons name rest ih =>
    intro i objs r h
    cases hl : tcfg.lookup name with
    | none => simp [createTasksLoop, hl] at h
    | some config =>
      cases ha : agents.lookup (agent_mapping name) with
      | none => simp [createTasksLoop, hl, ha] at h
      | some ag =>
        simp only [createTasksLoop, hl, ha] at h
        split at h
        · exact absurd h (by simp)
        · rename_i tail hr0
          have hr' := (Except.ok.inj h).symm
          subst hr'
          obtain ⟨hlen, hdesc⟩ := ih (i + 1) _ tail hr0
          refine ⟨by simp [hlen], ?_⟩
          intro j hj hn
          cases j with
          | zero =>
            exact ⟨config, by simpa using hl, by simp [CrewTask.description]⟩
          | succ j =>
            have hj' : j < tail.length := by simpa using hj
            have hn' : j < rest.length := by simpa using hn
            obtain ⟨cfg, hcfg, hd⟩ := hdesc j hj' hn'
            refine ⟨cfg, by simpa using hcfg, ?_⟩
            have harith : i + (j + 1) = (i + 1) + j := by omega
            simpa [harith] using hd

/-- C4: two independent builds from identical code content and identical
configuration (same task document, same registry, same substitution
environment; only the sampled timestamps differ) produce task lists of the
same length whose corresponding description strings share one
timestamp-free skeleton — they are identical except for the embedded
timestamp substitution. -/
theorem createTasks_descriptions_differ_only_in_timestamp
    (tcfg : List (String × TaskConfig)) (agents : List (String × Agent))
    (b : BaseEnv) (clock1 clock2 : Nat → String) (r1 r2 : List CrewTask)
    (h1 : createTasks tcfg agents b clock1 = .ok r1)
    (h2 : createTasks tcfg agents b clock2 = .ok r2) :
    r1.length = r2.length ∧
    ∀ j (hj1 : j < r1.length) (hj2 : j < r2.length),
      ∃ skel : List (Option String),
        (r1.get ⟨j, hj1⟩).description = fillHoles (clock1 j) skel ∧
        (r2.get ⟨j, hj2⟩).description = fillHoles (clock2 j) skel := by
  obtain ⟨hl1, hd1⟩ := createTasksLoop_ok_desc tcfg agents b clock1 task_names 0 [] r1
    (by simpa [createTasks] using h1)
  obtain ⟨hl2, hd2⟩ := createTasksLoop_ok_desc tcfg agents b clock2 task_names 0 [] r2
    (by simpa [createTasks] using h2)
  refine ⟨hl1.trans hl2.symm, ?_⟩
  intro j hj1 hj2
  have hn : j < task_names.length := hl1 ▸ hj1
  obtain ⟨c1, hc1, hd1'⟩ := hd1 j hj1 hn
  obtain ⟨c2, hc2, hd2'⟩ := hd2 j hj2 hn
  have hcc : c1 = c2 := Option.some.inj (hc1.symm.trans hc2)
  subst hcc
  refine ⟨skeleton b c1.description, ?_, ?_⟩
  · rw [hd1', renderTemplate_eq_fillHoles]
    simp
  · rw [hd2', renderTemplate_eq_fillHoles]
    simp

/-- A second sample clock, so the two witness builds carry different
timestamps. -/
def clockEx2 : Nat → String := fun i => "2026-10-12 11:11:" ++ toString i

/-- Concrete witness for C4. -/
theorem createTasks_descriptions_differ_only_in_timestamp_witness :
    ∃ r1 r2, createTasks tcfgEx agentsEx bEx clockEx = .ok r1 ∧
      createTasks tcfgEx agentsEx bEx clockEx2 = .ok r2 ∧
      r1.length = r2.length ∧
      ∀ j (hj1 : j < r1.length) (hj2 : j < r2.length),
        ∃ skel : List (Option String),
          (r1.get ⟨j, hj1⟩).description = fillHoles (clockEx j) skel ∧
          (r2.get ⟨j, hj2⟩).description = fillHoles (clockEx2 j) skel :=
  ⟨_, _, rfl, rfl,
    createTasks_descriptions_differ_only_in_timestamp tcfgEx agentsEx bEx
      clockEx clockEx2 _ _ rfl rfl⟩

end CodeReviewCrew
